import Mathlib

/-!
Shallow embedding of the player-landing backend (src/main.py, src/schemas.py).

The document store is modelled as explicit state: a record of the three
collections used by the endpoints ("player", "testimonial", "contactsubmission"),
threaded through each handler.  Raised HTTPExceptions become the error side of
an Except value; the store returned alongside it is the store after the call.
The repository helper create_document lives in database.py, which is repository
code not present under src/; it is modelled from the spec (one insert).
-/

namespace PlayerBackend

/-- Embedding of schemas.LinkItem (src/schemas.py). -/
structure LinkItem where
  title : String
  url : String
  icon : Option String := none
deriving DecidableEq, Repr

/-- Embedding of schemas.SeasonStats (src/schemas.py). -/
structure SeasonStats where
  season : String
  club : Option String := none
  league : Option String := none
  games : Option Int := some 0
  goals : Option Int := some 0
  assists : Option Int := some 0
  clean_sheets : Option Int := some 0
  minutes : Option Int := some 0
deriving DecidableEq, Repr

/-- Embedding of schemas.Player (src/schemas.py).  EmailStr and URL fields are
modelled as plain strings: the pydantic syntactic validation happens in framework
plumbing outside the handlers under study. -/
structure Player where
  slug : String
  name : String
  position : String
  age : Option Int := none
  country : Option String := none
  current_club : Option String := none
  league : Option String := none
  photo_url : Option String := none
  highlight_title : Option String := some "Best Highlights"
  highlight_url : Option String := none
  highlight_description : Option String := none
  height_cm : Option Int := none
  weight_kg : Option Int := none
  dominant_foot : Option String := none
  main_position : Option String := none
  secondary_positions : Option (List String) := some []
  past_clubs : Option (List String) := some []
  bio : Option String := none
  links : Option (List LinkItem) := some []
  stats : Option (List SeasonStats) := some []
  contact_email : Option String := none
deriving DecidableEq, Repr

/-- Embedding of schemas.Testimonial (src/schemas.py). -/
structure Testimonial where
  player_slug : String
  author : Option String := none
  role : Option String := none
  quote : String
deriving DecidableEq, Repr

/-- Embedding of schemas.ContactSubmission (src/schemas.py). -/
structure ContactSubmission where
  player_slug : String
  name : String
  role : String
  club_name : Option String := none
  email : Option String := none
  whatsapp : Option String := none
  country : Option String := none
  message : Option String := none
deriving DecidableEq, Repr

/-- The document store: one list per collection touched by the handlers, in
insertion order (MongoDB natural order for these append-only collections).
Collection names follow collection_name (src/main.py line 59): the lowercased
model class name. -/
structure Store where
  player : List Player
  testimonial : List Testimonial
  contactsubmission : List ContactSubmission
deriving DecidableEq, Repr

/-- A raised fastapi.HTTPException, as observed by the client. -/
structure HTTPException where
  status_code : Nat
  detail : String
deriving DecidableEq, Repr

/-- Python truthiness of an optional string (None and the empty string are
falsy); used for values coming from os.getenv and dict.get. -/
def pyTruthy : Option String → Bool
  | none => false
  | some s => !s.isEmpty

/-- Python `x or y` for an optional string x: y when x is None or empty. -/
def pyOr : Option String → String → String
  | none, d => d
  | some s, d => if s.isEmpty then d else s

/-- Split a character list on a separator character; mirrors the grouping
behaviour of str.split / regex alternation on a single separator. -/
def splitOnChar (sep : Char) : List Char → List (List Char)
  | [] => [[]]
  | c :: rest =>
    let r := splitOnChar sep rest
    if c = sep then [] :: r
    else
      match r with
      | g :: gs => (c :: g) :: gs
      | [] => [[c]]

/-- A character allowed inside a slug segment: the class [a-z0-9] of
slug_regex (src/main.py line 57). -/
def isSlugChar (c : Char) : Bool :=
  ( 'a' ≤ c && c ≤ 'z') || ( '0' ≤ c && c ≤ '9')

/-- Membership in the regular language of the anchored pattern
ASCII caret [a-z0-9]+(?:-[a-z0-9]+)*$ read as a pure regular expression:
non-empty groups of [a-z0-9] joined by single dashes. -/
def slugLangL (cs : List Char) : Bool :=
  (splitOnChar '-' cs).all fun g => !g.isEmpty && g.all isSlugChar

/-- The pattern of slug_regex as a pure (mathematically anchored) regular
language on strings. -/
def slugLang (s : String) : Bool :=
  slugLangL s.toList

/-- slug_regex.match (src/main.py line 57) under Python re semantics: the
dollar anchor matches at the end of the string or just before a newline that
is the last character, so a matching slug followed by one trailing newline is
also accepted. -/
def slug_regex_match (s : String) : Bool :=
  slugLangL s.toList ||
    (s.toList.getLast? == some '\n' && slugLangL s.toList.dropLast)

/-- Digit list to the natural number it denotes in base 10. -/
def digitsToNat (cs : List Char) : Nat :=
  cs.foldl (fun n c => 10 * n + (c.toNat - 48)) 0

/-- Python int(s) for a string argument: optional surrounding whitespace,
optional sign, then digits optionally separated by single underscores; any
other shape raises ValueError (modelled as none). -/
def pyToInt : String → Option Int := fun s =>
  let cs := ((s.toList.dropWhile Char.isWhitespace).reverse.dropWhile
    Char.isWhitespace).reverse
  match cs with
  | [] => none
  | c :: rest =>
    let sc : Int × List Char :=
      if c = '-' then (-1, rest)
      else if c = '+' then (1, rest) else (1, c :: rest)
    if !sc.2.isEmpty &&
        (splitOnChar '_' sc.2).all (fun g => !g.isEmpty && g.all Char.isDigit)
    then some (sc.1 * (digitsToNat (sc.2.filter fun ch => !(ch = '_'))))
    else none

/-- The SMTP environment variables read by send_email_background
(src/main.py lines 120-124); none models an unset variable. -/
structure SmtpEnv where
  SMTP_HOST : Option String := none
  SMTP_PORT : Option String := none
  SMTP_USER : Option String := none
  SMTP_PASS : Option String := none
  SMTP_FROM : Option String := none
deriving DecidableEq, Repr

/-- The MIMEText message built at src/main.py lines 130-133, kept as its
header fields plus payload (the wire encoding is irrelevant to the claims). -/
structure MimeMessage where
  content : String
  subject : String
  from_addr : String
  to_addr : String
deriving DecidableEq, Repr

/-- One call on the smtplib transport, in the order the code performs them. -/
inductive SmtpAction where
  | connect (host : String) (port : Int)
  | starttls
  | login (user : String) (password : String)
  | sendmail (from_addr : String) (to_addrs : List String) (msg : MimeMessage)
deriving DecidableEq, Repr

/-- An exception raised by the smtplib transport (connection, TLS, auth or
transmission failure); its identity is irrelevant, only that it was raised. -/
structure SmtpFailure where
  reason : String
deriving DecidableEq, Repr

/-- A Python exception escaping send_email_background to its caller. -/
inductive PyError where
  | valueError (msg : String)
deriving DecidableEq, Repr

/-- What the dispatcher did, when it returned normally. -/
inductive SendOutcome where
  | skipped
  | sent
  | failedSilently (e : SmtpFailure)
deriving DecidableEq, Repr

/-- A normal return of send_email_background: the outcome together with the
transport actions actually attempted. -/
structure SendResult where
  outcome : SendOutcome
  attempted : List SmtpAction
deriving DecidableEq, Repr

/-- Run transport actions in order against the network oracle, stopping at the
first action that raises; returns the attempted actions and the failure. -/
def runSmtpActions (net : SmtpAction → Except SmtpFailure Unit) :
    List SmtpAction → List SmtpAction × Option SmtpFailure
  | [] => ([], none)
  | a :: rest =>
    match net a with
    | .error e => ([a], some e)
    | .ok _ =>
      let r := runSmtpActions net rest
      (a :: r.1, r.2)

/-- Embedding of send_email_background (src/main.py lines 115-142).  The
network is an oracle deciding which transport call, if any, raises.  Reading
SMTP_PORT goes through int() before the configuration check and outside the
try block, so an unparsable value raises ValueError to the caller; every
failure inside the try block is swallowed (lines 140-142). -/
def send_email_background (env : SmtpEnv) (to_email subject content : String)
    (net : SmtpAction → Except SmtpFailure Unit) : Except PyError SendResult :=
  match pyToInt (env.SMTP_PORT.getD "587") with
  | none =>
    .error (.valueError ("invalid literal for int() with base 10: " ++
      env.SMTP_PORT.getD "587"))
  | some smtp_port =>
    let smtp_host := env.SMTP_HOST
    let smtp_user := env.SMTP_USER
    let smtp_password := env.SMTP_PASS
    let smtp_from :=
      match env.SMTP_FROM with
      | some v => v
      | none => pyOr env.SMTP_USER to_email
    if !(pyTruthy smtp_host && pyTruthy smtp_user && pyTruthy smtp_password) then
      .ok ⟨.skipped, []⟩
    else
      let msg : MimeMessage := ⟨content, subject, smtp_from, to_email⟩
      let r := runSmtpActions net
        [SmtpAction.connect (smtp_host.getD "") smtp_port,
         SmtpAction.starttls,
         SmtpAction.login (smtp_user.getD "") (smtp_password.getD ""),
         SmtpAction.sendmail smtp_from [to_email] msg]
      match r.2 with
      | none => .ok ⟨.sent, r.1⟩
      | some e => .ok ⟨.failedSilently e, r.1⟩

/-- Modelled from the spec: create_document (database.py, repository code not
under src/) serializes the validated entity and performs one insert into the
collection named after the entity type (spec 4.1); on the list model of a
collection this is an append at the end. -/
def create_document {α : Type} (coll : List α) (doc : α) : List α :=
  coll ++ [doc]

/-- Embedding of create_player (src/main.py lines 63-76); the db handle is
taken as connected.  The unreachable none arm of the re-fetch corresponds to
indexing a missing document, which Python would surface as a server error. -/
def create_player (store : Store) (player : Player) :
    Store × Except HTTPException Player :=
  if !(slug_regex_match player.slug) then
    (store, .error ⟨400, "Invalid slug. Use lowercase letters, numbers and dashes."⟩)
  else
    let existing := (store.player.filter fun d => d.slug == player.slug).take 1
    if !existing.isEmpty then
      (store, .error ⟨409, "Slug already exists"⟩)
    else
      let inserted := { store with player := create_document store.player player }
      match inserted.player.find? (fun d => d.slug == player.slug) with
      | some created => (inserted, .ok created)
      | none => (inserted, .error ⟨500, "Internal Server Error"⟩)

/-- Embedding of get_player (src/main.py lines 78-84). -/
def get_player (store : Store) (slug : String) :
    Store × Except HTTPException Player :=
  match store.player.find? (fun d => d.slug == slug) with
  | some doc => (store, .ok doc)
  | none => (store, .error ⟨404, "Player not found"⟩)

/-- Embedding of list_testimonials (src/main.py lines 87-94): the find cursor
yields the matching documents in store order and the loop re-collects them. -/
def list_testimonials (store : Store) (slug : String) :
    Store × Except HTTPException (List Testimonial) :=
  let docs := store.testimonial.filter fun d => d.player_slug == slug
  let res := docs.foldl (fun acc d => acc ++ [d]) []
  (store, .ok res)

/-- Embedding of add_testimonial (src/main.py lines 96-101). -/
def add_testimonial (store : Store) (slug : String) (testimonial : Testimonial) :
    Store × Except HTTPException Testimonial :=
  if testimonial.player_slug != slug then
    (store, .error ⟨400, "player_slug mismatch"⟩)
  else
    ({ store with testimonial := create_document store.testimonial testimonial },
     .ok testimonial)

deriving instance DecidableEq for Except

/-- The acknowledgement dict returned by submit_contact (src/main.py line 171). -/
structure StatusResp where
  status : String
deriving DecidableEq, Repr

/-- One background email task as added via background_tasks.add_task
(src/main.py line 169): the arguments send_email_background will receive. -/
structure EmailTask where
  to_email : String
  subject : String
  content : String
deriving DecidableEq, Repr

/-- Everything submit_contact produces: the store after the call, the
scheduled background tasks, and the HTTP response. -/
structure ContactResult where
  store : Store
  tasks : List EmailTask
  resp : Except HTTPException StatusResp
deriving DecidableEq, Repr

/-- The notification subject line (src/main.py line 155). -/
def contactSubject (player : Player) : String :=
  "New Contact/Trial Request for " ++ player.name

/-- The lines of the notification body (src/main.py lines 156-167), with
datetime.utcnow().isoformat() passed in as now_iso. -/
def composeContactLines (payload : ContactSubmission) (now_iso : String) :
    List String :=
  [ "Name: " ++ payload.name,
    "Role: " ++ payload.role,
    "Club: " ++ pyOr payload.club_name "-",
    "Email: " ++ pyOr payload.email "-",
    "WhatsApp: " ++ pyOr payload.whatsapp "-",
    "Country: " ++ pyOr payload.country "-",
    "",
    "Message:\n" ++ pyOr payload.message "-",
    "",
    "Submitted at: " ++ now_iso ++ " UTC" ]

/-- Embedding of submit_contact (src/main.py lines 144-171).  The handler only
adds the email task to the background task list; nothing is sent here. -/
def submit_contact (store : Store) (slug : String) (payload : ContactSubmission)
    (now_iso : String) : ContactResult :=
  if payload.player_slug != slug then
    ⟨store, [], .error ⟨400, "player_slug mismatch"⟩⟩
  else
    let stored :=
      { store with contactsubmission := create_document store.contactsubmission payload }
    match stored.player.find? (fun d => d.slug == slug) with
    | some player =>
      if pyTruthy player.contact_email then
        ⟨stored,
         [⟨player.contact_email.getD "", contactSubject player,
           String.intercalate "\n" (composeContactLines payload now_iso)⟩],
         .ok ⟨"ok"⟩⟩
      else
        ⟨stored, [], .ok ⟨"ok"⟩⟩
    | none => ⟨stored, [], .ok ⟨"ok"⟩⟩

/-- One observable event of a full contact-request cycle. -/
inductive TraceEvent where
  | responseSent (resp : Except HTTPException StatusResp)
  | emailTaskRun (task : EmailTask) (result : Except PyError SendResult)
deriving DecidableEq, Repr

/-- Modelled from the spec: the BackgroundTasks mechanism is framework
plumbing outside src/; per the spec the tasks added during handling run
strictly after the HTTP response has been returned to the caller, so a full
request cycle is the response event followed by one execution of each
scheduled task, in order. -/
def processContactRequest (store : Store) (slug : String)
    (payload : ContactSubmission) (now_iso : String) (env : SmtpEnv)
    (net : SmtpAction → Except SmtpFailure Unit) : Store × List TraceEvent :=
  let r := submit_contact store slug payload now_iso
  (r.store,
    TraceEvent.responseSent r.resp ::
      r.tasks.map fun t =>
        TraceEvent.emailTaskRun t
          (send_email_background env t.to_email t.subject t.content net))

/-! Concrete fixtures used by witnesses and counterexamples. -/

/-- A stored player with a configured contact email. -/
def playerW : Player :=
  { slug := "john-doe", name := "John Doe", position := "Forward",
    contact_email := some "coach@example.com" }

/-- A second creation payload carrying the same slug as playerW. -/
def playerW2 : Player :=
  { slug := "john-doe", name := "Johnny Doe", position := "Midfielder" }

/-- A player payload whose slug carries a trailing newline. -/
def playerNl : Player :=
  { slug := "abc\n", name := "Trailing Newline", position := "Forward" }

/-- A store holding exactly playerW. -/
def storeW : Store := ⟨[playerW], [], []⟩

/-- A contact payload targeting playerW. -/
def payloadW : ContactSubmission :=
  { player_slug := "john-doe", name := "Scout A", role := "scout" }

/-- A testimonial whose body slug differs from the path slug used below. -/
def testimonialX : Testimonial :=
  { player_slug := "other-guy", quote := "Great player" }

/-- A contact payload whose body slug differs from the path slug used below. -/
def contactX : ContactSubmission :=
  { player_slug := "other-guy", name := "B", role := "agent" }

/-- The email task submit_contact schedules for payloadW against storeW. -/
def taskW : EmailTask :=
  ⟨"coach@example.com", contactSubject playerW,
   String.intercalate "\n" (composeContactLines payloadW "2024-01-02T03:04:05")⟩

/-! Helper lemmas shared by several claim proofs. -/

/-- Re-collecting a list by appending its elements one at a time yields the
original list appended to the accumulator (the loop body of list_testimonials). -/
theorem foldl_append_singleton {α : Type} (l acc : List α) :
    l.foldl (fun a d => a ++ [d]) acc = acc ++ l := by
  induction l generalizing acc with
  | nil => simp
  | cons x xs ih => simp [List.foldl_cons, ih]

/-- pyOr rendered through Option.elim: the default for an absent or empty
optional string, the value itself otherwise. -/
theorem pyOr_elim (o : Option String) (d : String) :
    pyOr o d = o.elim d (fun s => if s.isEmpty then d else s) := by
  cases o <;> rfl

/-- C1: for every contact payload whose player_slug equals the path slug,
once the submission write succeeds submit_contact answers with the
acknowledgement status ok, for every store state - whether or not a player
with that slug exists or carries a contact_email, and independently of what
the scheduled notification later does. -/
theorem submit_contact_acknowledges (store : Store) (slug : String)
    (payload : ContactSubmission) (now_iso : String)
    (h : payload.player_slug = slug) :
    (submit_contact store slug payload now_iso).resp = Except.ok ⟨"ok"⟩ := by
  unfold submit_contact
  split
  · next hcond => simp [h] at hcond
  · dsimp only
    split
    · split <;> rfl
    · rfl

/-- Witness for C1 at a concrete store and payload. -/
theorem submit_contact_acknowledges_witness :
    payloadW.player_slug = "john-doe" ∧
    (submit_contact storeW "john-doe" payloadW "2024-01-02T03:04:05").resp =
      Except.ok ⟨"ok"⟩ :=
  ⟨rfl, submit_contact_acknowledges storeW "john-doe" payloadW "2024-01-02T03:04:05" rfl⟩

/-- C2 counterexample: with SMTP_PORT set to a string that is not an integer
literal, send_email_background raises ValueError to its caller (the int() call
on the port happens before the try block), even though the transport oracle
never fails - so the dispatcher is not total over every environment
configuration. -/
theorem send_email_background_bad_port_raises :
    (send_email_background ⟨none, some "abc", none, none, none⟩
      "scout@example.com" "Subject" "Body" (fun _ => Except.ok ())).isOk = false := by
  decide

/-- C2 amended: for every environment configuration whose SMTP_PORT value
(default "587") parses as a Python integer literal, and for every recipient,
subject, content and transport behaviour, send_email_background returns
normally: every failure in transport (connection, encryption negotiation,
authentication, transmission) is caught and discarded. -/
theorem send_email_background_no_raise (env : SmtpEnv)
    (to_email subject content : String) (net : SmtpAction → Except SmtpFailure Unit)
    (hport : (pyToInt (env.SMTP_PORT.getD "587")).isSome = true) :
    (send_email_background env to_email subject content net).isOk = true := by
  obtain ⟨n, hn⟩ := Option.isSome_iff_exists.mp hport
  unfold send_email_background
  rw [hn]
  dsimp only
  split
  · rfl
  · split <;> rfl

/-- Witness for the amended C2: a fully configured environment with an
always-failing transport still yields a normal return. -/
theorem send_email_background_no_raise_witness :
    (pyToInt ((⟨some "smtp.example.com", some "465", some "user", some "secret",
        none⟩ : SmtpEnv).SMTP_PORT.getD "587")).isSome = true ∧
    (send_email_background
      ⟨some "smtp.example.com", some "465", some "user", some "secret", none⟩
      "scout@example.com" "Subject" "Body"
      (fun _ => Except.error ⟨"connection refused"⟩)).isOk = true :=
  ⟨by decide,
   send_email_background_no_raise
     ⟨some "smtp.example.com", some "465", some "user", some "secret", none⟩
     "scout@example.com" "Subject" "Body"
     (fun _ => Except.error ⟨"connection refused"⟩) (by decide)⟩

/-- C3: for every testimonial or contact payload whose body player_slug
differs from the path slug, the request fails with the 400 player_slug
mismatch error, no background task is scheduled, and the store after the call
equals the store before it. -/
theorem slug_mismatch_rejected (store : Store) (slug : String) (t : Testimonial)
    (p : ContactSubmission) (now_iso : String)
    (ht : t.player_slug ≠ slug) (hp : p.player_slug ≠ slug) :
    add_testimonial store slug t = (store, Except.error ⟨400, "player_slug mismatch"⟩) ∧
    submit_contact store slug p now_iso =
      ⟨store, [], Except.error ⟨400, "player_slug mismatch"⟩⟩ := by
  constructor
  · unfold add_testimonial
    simp [ht]
  · unfold submit_contact
    simp [hp]

/-- Witness for C3 at concrete mismatching payloads. -/
theorem slug_mismatch_rejected_witness :
    testimonialX.player_slug ≠ "john-doe" ∧ contactX.player_slug ≠ "john-doe" ∧
    (add_testimonial storeW "john-doe" testimonialX =
        (storeW, Except.error ⟨400, "player_slug mismatch"⟩) ∧
      submit_contact storeW "john-doe" contactX "2024-01-02T03:04:05" =
        ⟨storeW, [], Except.error ⟨400, "player_slug mismatch"⟩⟩) :=
  ⟨by decide, by decide,
   slug_mismatch_rejected storeW "john-doe" testimonialX contactX
     "2024-01-02T03:04:05" (by decide) (by decide)⟩

/-- C4 counterexample: with the SMTP host absent but SMTP_PORT set to a
non-integer string, send_email_background does not return quietly - it raises
ValueError, because the port is parsed before the configuration check. -/
theorem send_email_background_unconfigured_bad_port_raises :
    (send_email_background ⟨none, some "nope", some "user", some "secret", none⟩
      "player@example.com" "Subject" "Body" (fun _ => Except.ok ())).isOk = false := by
  decide

/-- C4 amended: if any of the SMTP host, username, or password environment
settings is absent, and the SMTP_PORT setting (default "587") parses as an
integer, send_email_background returns normally having performed no action:
no transport action is attempted and the outcome is the skipped one. -/
theorem send_email_background_unconfigured_noop (env : SmtpEnv)
    (to_email subject content : String) (net : SmtpAction → Except SmtpFailure Unit)
    (habs : env.SMTP_HOST = none ∨ env.SMTP_USER = none ∨ env.SMTP_PASS = none)
    (hport : (pyToInt (env.SMTP_PORT.getD "587")).isSome = true) :
    send_email_background env to_email subject content net =
      Except.ok ⟨SendOutcome.skipped, []⟩ := by
  obtain ⟨n, hn⟩ := Option.isSome_iff_exists.mp hport
  unfold send_email_background
  rw [hn]
  dsimp only
  have hcond : (pyTruthy env.SMTP_HOST && pyTruthy env.SMTP_USER &&
      pyTruthy env.SMTP_PASS) = false := by
    rcases habs with h | h | h <;> simp [pyTruthy, h]
  rw [hcond]
  simp

/-- Witness for the amended C4: host unset, user and password set, default
port; the dispatcher skips and attempts no transport action. -/
theorem send_email_background_unconfigured_noop_witness :
    ((⟨none, none, some "user", some "secret", none⟩ : SmtpEnv).SMTP_HOST = none ∨
      (⟨none, none, some "user", some "secret", none⟩ : SmtpEnv).SMTP_USER = none ∨
      (⟨none, none, some "user", some "secret", none⟩ : SmtpEnv).SMTP_PASS = none) ∧
    (pyToInt ((⟨none, none, some "user", some "secret", none⟩ :
        SmtpEnv).SMTP_PORT.getD "587")).isSome = true ∧
    send_email_background ⟨none, none, some "user", some "secret", none⟩
      "player@example.com" "Subject" "Body" (fun _ => Except.ok ()) =
      Except.ok ⟨SendOutcome.skipped, []⟩ :=
  ⟨Or.inl rfl, by decide,
   send_email_background_unconfigured_noop
     ⟨none, none, some "user", some "secret", none⟩
     "player@example.com" "Subject" "Body" (fun _ => Except.ok ())
     (Or.inl rfl) (by decide)⟩

/-- C5: when the target player exists and has a contact email, the full
request cycle is the HTTP ok response first and the single dispatcher run
strictly after it: during handling the dispatcher is only scheduled as task
data, and the response value is produced without consulting the mail
environment or the transport. -/
theorem contact_notification_after_response (store : Store) (slug : String)
    (payload : ContactSubmission) (now_iso : String) (env : SmtpEnv)
    (net : SmtpAction → Except SmtpFailure Unit) (player : Player)
    (hmatch : payload.player_slug = slug)
    (hfind : store.player.find? (fun d => d.slug == slug) = some player)
    (hemail : pyTruthy player.contact_email = true) :
    (processContactRequest store slug payload now_iso env net).2 =
      [TraceEvent.responseSent (Except.ok ⟨"ok"⟩),
       TraceEvent.emailTaskRun
         ⟨player.contact_email.getD "", contactSubject player,
          String.intercalate "\n" (composeContactLines payload now_iso)⟩
         (send_email_background env (player.contact_email.getD "")
            (contactSubject player)
            (String.intercalate "\n" (composeContactLines payload now_iso)) net)] := by
  unfold processContactRequest submit_contact
  dsimp only
  simp [hmatch, hfind, hemail]

/-- Witness for C5 at a concrete store, player and payload. -/
theorem contact_notification_after_response_witness :
    payloadW.player_slug = "john-doe" ∧
    storeW.player.find? (fun d => d.slug == "john-doe") = some playerW ∧
    pyTruthy playerW.contact_email = true ∧
    (processContactRequest storeW "john-doe" payloadW "2024-01-02T03:04:05"
        ⟨none, none, none, none, none⟩ (fun _ => Except.ok ())).2 =
      [TraceEvent.responseSent (Except.ok ⟨"ok"⟩),
       TraceEvent.emailTaskRun
         ⟨playerW.contact_email.getD "", contactSubject playerW,
          String.intercalate "\n" (composeContactLines payloadW "2024-01-02T03:04:05")⟩
         (send_email_background ⟨none, none, none, none, none⟩
            (playerW.contact_email.getD "") (contactSubject playerW)
            (String.intercalate "\n" (composeContactLines payloadW "2024-01-02T03:04:05"))
            (fun _ => Except.ok ()))] :=
  ⟨rfl, by decide, by decide,
   contact_notification_after_response storeW "john-doe" payloadW
     "2024-01-02T03:04:05" ⟨none, none, none, none, none⟩ (fun _ => Except.ok ())
     playerW rfl (by decide) (by decide)⟩

/-- C6: the code does NOT reject every slug outside the language of the
pattern: the slug with a trailing newline is outside that language, yet
create_player accepts it and persists the document, because the Python dollar
anchor also matches just before a final newline.  The claimed rejection fails
at this input. -/
theorem create_player_accepts_newline_slug :
    slugLang "abc\n" = false ∧
    create_player ⟨[], [], []⟩ playerNl =
      (⟨[playerNl], [], []⟩, Except.ok playerNl) :=
  ⟨by decide, by decide⟩

/-- C7: for every valid slug and any store not yet holding it, creation
succeeds exactly once: the first call inserts the document and echoes it, and
a second call with any payload carrying the identical slug fails with the 409
conflict error and inserts nothing. -/
theorem create_player_first_succeeds_then_conflicts (store : Store) (p q : Player)
    (hvalid : slug_regex_match p.slug = true)
    (hfresh : store.player.filter (fun d => d.slug == p.slug) = [])
    (hq : q.slug = p.slug) :
    create_player store p =
      ({ store with player := store.player ++ [p] }, Except.ok p) ∧
    create_player { store with player := store.player ++ [p] } q =
      ({ store with player := store.player ++ [p] },
       Except.error ⟨409, "Slug already exists"⟩) := by
  have hnone : store.player.find? (fun d => d.slug == p.slug) = none :=
    List.find?_eq_none.mpr fun x hx => by
      have := List.filter_eq_nil_iff.mp hfresh x hx
      simpa using this
  constructor
  · have hfind : (store.player ++ [p]).find? (fun d => d.slug == p.slug) = some p := by
      rw [List.find?_append, hnone]
      simp
    unfold create_player
    simp only [hvalid, Bool.not_true, Bool.false_eq_true, if_false]
    simp only [hfresh, List.take_nil, List.isEmpty_nil, Bool.not_true,
      Bool.false_eq_true, if_false]
    simp only [create_document]
    rw [hfind]
  · have hvq : slug_regex_match q.slug = true := by rw [hq]; exact hvalid
    have hfilter : ((store.player ++ [p]).filter fun d => d.slug == q.slug) = [p] := by
      rw [List.filter_append]
      have h1 : store.player.filter (fun d => d.slug == q.slug) = [] := by
        rw [hq]; exact hfresh
      rw [h1]
      simp [hq]
    unfold create_player
    simp only [hvq, Bool.not_true, Bool.false_eq_true, if_false]
    rw [hfilter]
    simp

/-- Witness for C7: create john-doe in the empty store, then attempt a second
creation with the same slug. -/
theorem create_player_first_succeeds_then_conflicts_witness :
    slug_regex_match playerW.slug = true ∧
    List.filter (fun d => d.slug == playerW.slug) (⟨[], [], []⟩ : Store).player = [] ∧
    playerW2.slug = playerW.slug ∧
    (create_player ⟨[], [], []⟩ playerW = (⟨[playerW], [], []⟩, Except.ok playerW) ∧
      create_player ⟨[playerW], [], []⟩ playerW2 =
        (⟨[playerW], [], []⟩, Except.error ⟨409, "Slug already exists"⟩)) :=
  ⟨by decide, rfl, rfl,
   create_player_first_succeeds_then_conflicts ⟨[], [], []⟩ playerW playerW2
     (by decide) rfl rfl⟩

/-- C8: whenever submit_contact schedules a notification, its body is the
fixed-format plain-text message listing, in order, name, role, club, email,
whatsapp, country, the free-text message and the submission UTC timestamp,
with an absent (or empty) optional field rendered as a dash. -/
theorem contact_notification_body (store : Store) (slug : String)
    (payload : ContactSubmission) (now_iso : String) (t : EmailTask)
    (hsched : (submit_contact store slug payload now_iso).tasks = [t]) :
    t.content = String.intercalate "\n"
      [ "Name: " ++ payload.name,
        "Role: " ++ payload.role,
        "Club: " ++ payload.club_name.elim "-" (fun c => if c.isEmpty then "-" else c),
        "Email: " ++ payload.email.elim "-" (fun c => if c.isEmpty then "-" else c),
        "WhatsApp: " ++ payload.whatsapp.elim "-" (fun c => if c.isEmpty then "-" else c),
        "Country: " ++ payload.country.elim "-" (fun c => if c.isEmpty then "-" else c),
        "",
        "Message:\n" ++ payload.message.elim "-" (fun c => if c.isEmpty then "-" else c),
        "",
        "Submitted at: " ++ now_iso ++ " UTC" ] := by
  unfold submit_contact at hsched
  split at hsched
  · exact List.noConfusion hsched
  · dsimp only at hsched
    split at hsched
    · split at hsched
      · dsimp only at hsched
        injection hsched with h1 h2
        subst h1
        dsimp only
        simp only [composeContactLines, pyOr_elim]
      · exact List.noConfusion hsched
    · exact List.noConfusion hsched

/-- Witness for C8 at a concrete scheduled task whose optional fields are all
absent. -/
theorem contact_notification_body_witness :
    (submit_contact storeW "john-doe" payloadW "2024-01-02T03:04:05").tasks = [taskW] ∧
    taskW.content = String.intercalate "\n"
      [ "Name: " ++ payloadW.name,
        "Role: " ++ payloadW.role,
        "Club: " ++ payloadW.club_name.elim "-" (fun c => if c.isEmpty then "-" else c),
        "Email: " ++ payloadW.email.elim "-" (fun c => if c.isEmpty then "-" else c),
        "WhatsApp: " ++ payloadW.whatsapp.elim "-" (fun c => if c.isEmpty then "-" else c),
        "Country: " ++ payloadW.country.elim "-" (fun c => if c.isEmpty then "-" else c),
        "",
        "Message:\n" ++ payloadW.message.elim "-" (fun c => if c.isEmpty then "-" else c),
        "",
        "Submitted at: " ++ "2024-01-02T03:04:05" ++ " UTC" ] :=
  ⟨by decide,
   contact_notification_body storeW "john-doe" payloadW "2024-01-02T03:04:05"
     taskW (by decide)⟩

/-- C9: reading a player is idempotent and read-only: the call leaves the
store unchanged, and an immediately repeated call against the resulting store
returns exactly the same response. -/
theorem get_player_readonly_idempotent (store : Store) (slug : String) :
    (get_player store slug).1 = store ∧
    get_player (get_player store slug).1 slug = get_player store slug := by
  have h1 : (get_player store slug).1 = store := by
    unfold get_player
    split <;> rfl
  exact ⟨h1, by rw [h1]⟩

/-- C10: listing testimonials never fails: for every slug and store it leaves
the store unchanged and returns exactly the stored testimonial documents
whose player_slug equals the path slug - the empty sequence, not an error,
when there are none, in particular when no player with that slug exists. -/
theorem list_testimonials_filter (store : Store) (slug : String) :
    list_testimonials store slug =
      (store, Except.ok (store.testimonial.filter fun d => d.player_slug == slug)) := by
  unfold list_testimonials
  dsimp only
  rw [foldl_append_singleton]
  simp

end PlayerBackend
